import Mathlib

/-!
Shallow embedding of the ConversQL repository in Lean 4.

The namespace Py holds the fragment of Python semantics the two source
files rely on: value truthiness, the dict operations, the string
operations strip, upper, startswith and replace, and the Json documents
produced by json.dumps.

The namespace SqlCheck embeds the tool process sqlcheckmcpserver.py:
the two MCP tool functions get_table_ddl and execute_select_query, with
the Oracle backing store abstracted as a record of behaviors.

The namespace Api embeds the gateway api_optimized_api.py: the session
scope of MCPClient.ai_query, the unary endpoint query_ai and the
WebSocket endpoint websocket_ai_query, as trace producing functions
over an abstract agent behavior.
-/

namespace Py

/-- Python values, as far as the embedded code inspects them: the tool
parameter mapping is typed Dict[str, Any], so a bound value may be a
string, an int, a bool, or None; vOpaque stands for a non JSON
primitive database value (date, decimal, LOB) that json.dumps can only
serialize through its default stringifier str. Container valued
parameters (lists, dicts) are not modelled: the embedded code inspects
parameters only through truthiness and string operations, and the
truthy non string cases are already covered by ints and bools. -/
inductive PyValue : Type
  | vNone
  | vStr (s : String)
  | vInt (n : Int)
  | vBool (b : Bool)
  | vOpaque (r : String)
  deriving DecidableEq

/-- Python truthiness bool(x) of a value: None is falsy, a string is
truthy iff nonempty, an int iff nonzero, a bool is itself, and an
opaque driver object is truthy. -/
def truthy : PyValue → Bool
  | .vNone => false
  | .vStr s => !s.data.isEmpty
  | .vInt n => n != 0
  | .vBool b => b
  | .vOpaque _ => true

/-- Python dict with string keys, as an association list whose keys are
pairwise distinct in any dict actually built by Python; lookups take
the first binding. -/
def Dict : Type := List (String × PyValue)

/-- Python d.get(k): the value bound to k, or None when the key is
absent (the default of dict.get). -/
def Dict.get (p : Dict) (k : String) : PyValue :=
  match p.find? (fun kv => kv.1 == k) with
  | some kv => kv.2
  | none => .vNone

/-- Python str.strip() with no argument: remove leading and trailing
whitespace (ASCII approximation of the Python whitespace set; the
embedded checks only meet ASCII text). -/
def pyStrip (s : String) : String :=
  ⟨((s.data.dropWhile Char.isWhitespace).reverse.dropWhile Char.isWhitespace).reverse⟩

/-- Python str.upper() (ASCII letters; the embedded code compares the
result only against the ASCII word SELECT). -/
def pyUpper (s : String) : String :=
  ⟨s.data.map Char.toUpper⟩

/-- Python str.startswith(pre). -/
def pyStartsWith (s pre : String) : Bool :=
  pre.data.isPrefixOf s.data

/-- Occurrence of pat somewhere inside a character list. -/
def listInfixOf : List Char → List Char → Bool
  | pat, [] => pat.isEmpty
  | pat, c :: rest => pat.isPrefixOf (c :: rest) || listInfixOf pat rest

/-- Python substring membership, pat in s. -/
def pyContains (s pat : String) : Bool :=
  listInfixOf pat.data s.data

/-- Helper for pyReplace: fuel bounded left to right scan replacing
every non overlapping occurrence of pat by rep. The definition is
structural in the fuel so that it evaluates inside the kernel; fuel
equal to the length of the scanned list suffices because every step
consumes at least one character. -/
def replaceFuel (pat rep : List Char) : Nat → List Char → List Char
  | 0, s => s
  | _ + 1, [] => []
  | fuel + 1, c :: rest =>
    if !pat.isEmpty && pat.isPrefixOf (c :: rest) then
      rep ++ replaceFuel pat rep fuel ((c :: rest).drop pat.length)
    else
      c :: replaceFuel pat rep fuel rest

/-- Python s.replace(old, new): replace every non overlapping
occurrence of old, scanning left to right. The Python corner case of an
empty old string (insert new between all characters) is not exercised
by the embedded code, which only replaces nonempty literal markers;
here an empty old string leaves the input unchanged. -/
def pyReplace (s old new : String) : String :=
  ⟨replaceFuel old.data new.data s.data.length s.data⟩

/-- Python str(x) as observable on the values above. -/
def pyStr : PyValue → String
  | .vNone => "None"
  | .vStr s => s
  | .vInt n => toString n
  | .vBool b => if b then "True" else "False"
  | .vOpaque r => r

/-- JSON documents, the shape produced by json.dumps in the tool
process. -/
inductive Json : Type
  | str (s : String)
  | num (n : Int)
  | bool (b : Bool)
  | null
  | arr (xs : List Json)
  | obj (fields : List (String × Json))

/-- Minimal JSON string escaping (quote and backslash), enough for the
renderer below to be a total function; the theorems speak about the
document structure, not the escaped bytes. -/
def escString (s : String) : String :=
  ⟨s.data.foldr
    (fun c acc =>
      if c = '"' then '\\' :: '"' :: acc
      else if c = '\\' then '\\' :: '\\' :: acc
      else c :: acc) []⟩

mutual

/-- Textual rendering of a Json document. The source calls json.dumps
with indent 2; the spec states the pretty layout is not required for
correctness, so this renderer produces the same document compactly and
the theorems are stated about the document structure. -/
def renderJson : Json → String
  | .str s => "\"" ++ escString s ++ "\""
  | .num n => toString n
  | .bool b => if b then "true" else "false"
  | .null => "null"
  | .arr xs => "[" ++ renderArr xs ++ "]"
  | .obj fs => "\x7b" ++ renderObj fs ++ "\x7d"

/-- Comma separated rendering of the elements of a JSON array. -/
def renderArr : List Json → String
  | [] => ""
  | [x] => renderJson x
  | x :: y :: xs => renderJson x ++ ", " ++ renderArr (y :: xs)

/-- Comma separated rendering of the fields of a JSON object. -/
def renderObj : List (String × Json) → String
  | [] => ""
  | [(k, v)] => "\"" ++ escString k ++ "\": " ++ renderJson v
  | (k, v) :: kw :: fs =>
    "\"" ++ escString k ++ "\": " ++ renderJson v ++ ", " ++ renderObj (kw :: fs)

end

/-- Insertion into a Python dict: an existing key keeps its position
and receives the new value, a new key is appended at the end (Python
3.7+ insertion order semantics). -/
def dictInsert (d : List (String × PyValue)) (k : String) (v : PyValue) :
    List (String × PyValue) :=
  if d.any (fun kv => kv.1 == k) then
    d.map (fun kv => if kv.1 == k then (kv.1, v) else kv)
  else
    d ++ [(k, v)]

/-- Python dict(pairs): build a dict by left to right insertion. -/
def pyDict (pairs : List (String × PyValue)) : List (String × PyValue) :=
  pairs.foldl (fun d kv => dictInsert d kv.1 kv.2) []

/-- Key membership test in the orientation used by dictInsert. -/
def hasKey (ks : List String) (k : String) : Bool :=
  ks.any (fun x => x == k)

/-- Insertion ordered first occurrences of a list of keys: exactly the
key sequence of a Python dict built by inserting those keys left to
right. -/
def dedupKeys (ks : List String) : List String :=
  ks.foldl (fun acc k => if hasKey acc k then acc else acc ++ [k]) []

end Py

namespace SqlCheck

open Py

/-- Oracle error payload: the textual rendering str(e) of a raised
oracledb.Error. -/
abbrev OraErr : Type := String

/-- Abstract behavior of the backing Oracle store during one tool call:
the outcome of opening a connection (get_db_connection), the outcome of
executing a statement through a cursor (the description column names
paired with the fetched rows), and the outcome of the DBMS_METADATA DDL
lookup for an upper cased table name (none models a lookup that yields
no row, some v a row whose first column is v). An error value models a
raised oracledb.Error. -/
structure Store : Type where
  connect : Except OraErr Unit
  exec : String → Except OraErr (List String × List (List PyValue))
  ddl : String → Except OraErr (Option PyValue)

/-- Python exceptions other than oracledb.Error escaping a tool
function. The except clauses of the source catch only oracledb.Error,
so calling strip on a truthy non string query value raises an
AttributeError that propagates out of the function. -/
inductive PyFault : Type
  | attributeError (msg : String)
  deriving DecidableEq

/-- Observable outcome of one call to execute_select_query: the Python
return value (or the escaped exception), whether a store connection was
opened, and the statements executed against the store, in order. -/
structure Outcome : Type where
  result : Except PyFault String
  connOpened : Bool
  executed : List String

/-- Serialization of one column value by json.dumps: JSON primitives
pass through, a non primitive value goes through the default
stringifier str, so serialization is total and never raises. -/
def pyToJson : PyValue → Json
  | .vNone => .null
  | .vStr s => .str s
  | .vInt n => .num n
  | .vBool b => .bool b
  | .vOpaque r => .str r

/-- One element of formatted_results in the source, as a Json object:
dict(zip(columns, row)) with every value serialized. -/
def rowObject (columns : List String) (row : List PyValue) : Json :=
  .obj ((pyDict (columns.zip row)).map (fun kv => (kv.1, pyToJson kv.2)))

/-- The formatted_results list of the source rendered as a Json
document: one object per fetched row. -/
def jsonOfResults (columns : List String) (results : List (List PyValue)) : Json :=
  .arr (results.map (rowObject columns))

/-- Field names of a Json object, in order; not an object gives the
empty list. -/
def objKeys : Json → List String
  | .obj fs => fs.map Prod.fst
  | _ => []

/-- Embedding of get_table_ddl from sqlcheckmcpserver.py lines 30 to
46. The body runs under try/except oracledb.Error: a connection error
or a metadata lookup error is returned as text, a fetched row yields
str of its first column (the if result test of the source is on the row
tuple, which is truthy whenever a row came back, even one holding
NULL), and an absent row yields the No DDL found message. The table
name is a typed str parameter, so no path raises a non Oracle
exception: the result is always Except.ok. -/
def get_table_ddl (db : Store) (table_name : String) : Except PyFault String :=
  match db.connect with
  | .error e => .ok ("Error retrieving DDL: " ++ e)
  | .ok _ =>
    match db.ddl (pyUpper table_name) with
    | .error e => .ok ("Error retrieving DDL: " ++ e)
    | .ok none => .ok ("No DDL found for table " ++ table_name)
    | .ok (some v) => .ok (pyStr v)

/-- Embedding of execute_select_query from sqlcheckmcpserver.py lines
48 to 76, following the source line by line: read table_name and query
from the params dict (an absent key gives None), return the fixed
required parameters message when either is falsy before touching the
store, then inside try/except oracledb.Error open a connection, apply
the SELECT prefix test to query.strip().upper(), execute the accepted
statement and serialize the fetched rows with
json.dumps(default=str). A truthy non string query value reaches
query.strip() after the connection has been opened and raises an
AttributeError that the except oracledb.Error clause does not catch. -/
def execute_select_query (db : Store) (params : Dict) : Outcome :=
  if !truthy (params.get "table_name") || !truthy (params.get "query") then
    ⟨.ok "Error: Both table_name and query parameters are required", false, []⟩
  else
    match db.connect with
    | .error e => ⟨.ok ("Error executing query: " ++ e), true, []⟩
    | .ok _ =>
      match params.get "query" with
      | .vStr q =>
        if !pyStartsWith (pyUpper (pyStrip q)) "SELECT" then
          ⟨.ok "Error: Only SELECT queries are allowed", true, []⟩
        else
          match db.exec q with
          | .error e => ⟨.ok ("Error executing query: " ++ e), true, [q]⟩
          | .ok (columns, results) =>
            ⟨.ok (renderJson (jsonOfResults columns results)), true, [q]⟩
      | _ => ⟨.error (.attributeError "strip called on a non string query value"), true, []⟩

end SqlCheck

namespace Api

open Py

/-- Observable events of the gateway api_optimized_api.py, in program
order: creation and closing of the MCPClient (its HTTP clients),
opening of one MCP session inside ai_query (entering stdio_client plus
ClientSession, i.e. spawning one child tool process), the
session.initialize handshake, the load_mcp_tools discovery, one agent
run for a query, the closing of that session when the async with scope
is left, and a WebSocket send_text frame. -/
inductive Ev : Type
  | clientCreated
  | clientClosed
  | sessionOpen
  | sessionInit
  | toolsDiscovered
  | agentInvoke (q : String)
  | sessionClose
  | sendText (t : String)
  deriving DecidableEq

/-- Abstract behavior of the collaborators of one gateway execution:
openSession is the combined outcome of spawning the child process and
the initialize handshake, and agent gives for each query the outcome of
agent.ainvoke (ok carries the content of the final message, error the
textual rendering of a raised exception, covering reasoning loop
failures and tool transport failures alike). -/
structure AgentEnv : Type where
  openSession : Except String Unit
  agent : String → Except String String

/-- Embedding of MCPClient.ai_query, api_optimized_api.py lines 99 to
116: enter stdio_client and ClientSession (spawn one child process),
initialize, load the MCP tools, build the react agent, run it on the
query, and return the content of the last message. The async with
scopes close the session both on normal return and on a raised
exception, so every successfully opened session is closed; when the
spawn or handshake fails, no session events are emitted and the
exception propagates. -/
def ai_query (env : AgentEnv) (q : String) : Except String String × List Ev :=
  match env.openSession with
  | .error e => (.error e, [])
  | .ok _ =>
    (env.agent q,
     [.sessionOpen, .sessionInit, .toolsDiscovered, .agentInvoke q, .sessionClose])

/-- HTTP outcome of the unary endpoint: the JSON body with the response
field on success, or an HTTPException with a status code on failure. -/
inductive HttpResult : Type
  | ok (response : String)
  | serverError (status : Nat) (detail : String)
  deriving DecidableEq

/-- Embedding of the unary endpoint query_ai, api_optimized_api.py
lines 158 to 186: construct the MCPClient, then under try return the
raw ai_query response in the JSON body, on any exception raise
HTTPException(500, str(e)), and in the finally block always close the
client. The response is returned exactly as produced by ai_query: no
reasoning marker stripping happens on this path. -/
def query_ai (env : AgentEnv) (q : String) : HttpResult × List Ev :=
  let r := ai_query env q
  match r.1 with
  | .ok response => (.ok response, Ev.clientCreated :: r.2 ++ [Ev.clientClosed])
  | .error e => (.serverError 500 e, Ev.clientCreated :: r.2 ++ [Ev.clientClosed])

/-- Reasoning marker cleanup of the WebSocket path, api_optimized_api.py
line 218: response.replace applied to both think markers, then
strip. -/
def cleanResponse (s : String) : String :=
  pyStrip (pyReplace (pyReplace s "<think>" "") "</think>" "")

/-- Loop body of the WebSocket endpoint over the sequence of queries
received on one connection, api_optimized_api.py lines 212 to 228. The
incoming list models the successive receive_text results; its end
models the client disconnecting, which makes receive_text raise
WebSocketDisconnect, caught outside the loop. Each received query runs
client.ai_query from scratch; a successful response is cleaned and
sent; a raised exception leaves the while loop (the except Exception
clause is outside it), sends one Error prefixed frame, and falls into
the finally block that closes the client, ending the handler. -/
def wsLoop (env : AgentEnv) : List String → List Ev
  | [] => [Ev.clientClosed]
  | q :: rest =>
    let r := ai_query env q
    match r.1 with
    | .ok response => r.2 ++ [Ev.sendText (cleanResponse response)] ++ wsLoop env rest
    | .error e => r.2 ++ [Ev.sendText ("Error: " ++ e), Ev.clientClosed]

/-- Embedding of the WebSocket endpoint websocket_ai_query,
api_optimized_api.py lines 188 to 228: accept the connection, construct
one MCPClient for the whole connection, then run the receive/answer
loop until disconnect or the first raised exception. -/
def websocket_ai_query (env : AgentEnv) (queries : List String) : List Ev :=
  Ev.clientCreated :: wsLoop env queries

/-- Number of occurrences of one event in a trace. -/
def countEv (e : Ev) : List Ev → Nat
  | [] => 0
  | x :: xs => (if x = e then 1 else 0) + countEv e xs

/-- Number of agentInvoke events in a trace, i.e. how many queries were
actually processed. -/
def countInvokes : List Ev → Nat
  | [] => 0
  | Ev.agentInvoke _ :: xs => 1 + countInvokes xs
  | _ :: xs => countInvokes xs

end Api

namespace SqlCheck

open Py

/-- Store used by witnesses: connects and answers every statement with
one fixed row. -/
def storeOk : Store :=
  ⟨.ok (), fun _ => .ok (["ID"], [[.vInt 7]]),
   fun _ => .ok (some (.vStr "CREATE TABLE T (ID NUMBER)"))⟩

/-- Store used by witnesses whose connection attempt raises an
oracledb.Error. -/
def storeDown : Store :=
  ⟨.error "ORA-12541: no listener", fun _ => .error "ORA-12541: no listener",
   fun _ => .error "ORA-12541: no listener"⟩

/-- Store used by witnesses where the DDL metadata lookup yields no
row. -/
def storeNoDdl : Store :=
  ⟨.ok (), fun _ => .ok ([], []), fun _ => .ok none⟩

/-- Store answering one SELECT with two identically named columns, as
an Oracle cursor description may. -/
def storeDup : Store :=
  ⟨.ok (),
   fun _ => .ok (["A", "A"], [[PyValue.vInt 1, PyValue.vInt 2]]),
   fun _ => .ok none⟩

/-- Params mapping with a truthy table_name and a non SELECT query. -/
def pDrop : Dict := [("table_name", PyValue.vStr "T"), ("query", PyValue.vStr "DROP TABLE T")]

/-- Params mapping with one table_name value. -/
def pSelectA : Dict :=
  [("table_name", PyValue.vStr "ORDERS"), ("query", PyValue.vStr "SELECT * FROM ORDERS")]

/-- Params mapping identical to pSelectA except for the table_name
value. -/
def pSelectB : Dict :=
  [("table_name", PyValue.vStr "UNRELATED"), ("query", PyValue.vStr "SELECT * FROM ORDERS")]

/-- Params mapping with the table_name key absent. -/
def pNoTable : Dict := [("query", PyValue.vStr "SELECT 1 FROM DUAL")]

/-- Params mapping selecting the same column name twice. -/
def pDupCols : Dict :=
  [("table_name", PyValue.vStr "T"), ("query", PyValue.vStr "SELECT A, A FROM T")]

end SqlCheck

namespace Api

/-- Environment where both the session setup and every agent run
succeed. -/
def envEcho : AgentEnv := ⟨.ok (), fun q => .ok ("answer to " ++ q)⟩

/-- Environment whose agent raises on the query bad and succeeds on
every other query. -/
def envFail : AgentEnv :=
  ⟨.ok (), fun q => if q == "bad" then .error "boom" else .ok "fine"⟩

/-- Environment whose agent answers with internal reasoning markers
still embedded in the final message. -/
def envLeak : AgentEnv :=
  ⟨.ok (), fun _ => .ok "<think>internal reasoning</think> final answer"⟩

end Api

namespace Py

/-- Prefix of an appended string. -/
lemma pyStartsWith_append (a b pre : String) (h : pyStartsWith a pre = true) :
    pyStartsWith (a ++ b) pre = true := by
  have hd : (a ++ b).data = a.data ++ b.data := rfl
  rw [pyStartsWith, hd, List.isPrefixOf_iff_prefix] at *
  exact List.IsPrefix.trans h (List.prefix_append _ _)

lemma pyStartsWith_error_exec (b : String) :
    pyStartsWith ("Error executing query: " ++ b) "Error" = true :=
  pyStartsWith_append "Error executing query: " b "Error" (by decide)

/-- Keys of a dict after one insertion: unchanged when the key was
present, appended otherwise. -/
lemma dictInsert_keys (d : List (String × PyValue)) (k : String) (v : PyValue) :
    (dictInsert d k v).map Prod.fst =
      if hasKey (d.map Prod.fst) k then d.map Prod.fst else d.map Prod.fst ++ [k] := by
  unfold dictInsert hasKey
  have hany : d.any (fun kv => kv.1 == k) = (d.map Prod.fst).any (fun x => x == k) := by
    induction d with
    | nil => rfl
    | cons kv rest ih => simp [List.any_cons, ih]
  rw [hany]
  by_cases h : (d.map Prod.fst).any (fun x => x == k) = true
  · rw [h]
    simp only [if_true]
    rw [List.map_map]
    apply List.map_congr_left
    intro kv _
    by_cases hk : kv.1 = k <;> simp [hk]
  · rw [Bool.not_eq_true] at h
    rw [h]
    simp [List.map_append]

/-- Keys of a dict built by folding insertions, with an arbitrary
starting dict. -/
lemma pyDict_keys_aux (pairs : List (String × PyValue)) :
    ∀ d : List (String × PyValue),
      ((pairs.foldl (fun d kv => dictInsert d kv.1 kv.2) d).map Prod.fst) =
        (pairs.map Prod.fst).foldl
          (fun acc k => if hasKey acc k then acc else acc ++ [k]) (d.map Prod.fst) := by
  induction pairs with
  | nil => intro d; rfl
  | cons kv rest ih =>
    intro d
    simp only [List.foldl_cons, List.map_cons]
    rw [ih (dictInsert d kv.1 kv.2), dictInsert_keys]

/-- The key sequence of a Python dict built from a pair list is the
insertion ordered first occurrence sequence of the pair keys. -/
lemma pyDict_keys (pairs : List (String × PyValue)) :
    (pyDict pairs).map Prod.fst = dedupKeys (pairs.map Prod.fst) := by
  unfold pyDict dedupKeys
  exact pyDict_keys_aux pairs []

/-- Membership reading of hasKey. -/
lemma hasKey_iff (ks : List String) (k : String) : hasKey ks k = true ↔ k ∈ ks := by
  simp only [hasKey, List.any_eq_true, beq_iff_eq]
  constructor
  · rintro ⟨x, hx, rfl⟩; exact hx
  · intro h; exact ⟨k, h, rfl⟩

/-- Folding fresh keys with no duplicates just appends them. -/
lemma dedupKeys_aux (ks : List String) :
    ∀ acc : List String, ks.Nodup → (∀ k ∈ ks, k ∉ acc) →
      ks.foldl (fun acc k => if hasKey acc k then acc else acc ++ [k]) acc = acc ++ ks := by
  induction ks with
  | nil => intro acc _ _; simp
  | cons k rest ih =>
    intro acc hnd hfresh
    simp only [List.foldl_cons]
    have hk : hasKey acc k = false := by
      rw [Bool.eq_false_iff]
      intro hcon
      exact hfresh k (by simp) ((hasKey_iff acc k).mp hcon)
    rw [hk]
    simp only [Bool.false_eq_true, if_false]
    rw [ih (acc ++ [k]) (List.Nodup.of_cons hnd) ?_]
    · simp
    · intro k2 hk2 hcon
      rcases List.mem_append.mp hcon with h | h
      · exact hfresh k2 (by simp [hk2]) h
      · rw [List.mem_singleton] at h
        subst h
        rw [List.nodup_cons] at hnd
        exact hnd.1 hk2

/-- A duplicate free key list dedups to itself. -/
lemma dedupKeys_eq_self (ks : List String) (h : ks.Nodup) : dedupKeys ks = ks := by
  unfold dedupKeys
  rw [dedupKeys_aux ks [] h (by simp)]
  simp

end Py

namespace SqlCheck

open Py

/-- Helper: a query accepted by the SELECT prefix test is a nonempty,
hence truthy, string. -/
lemma select_prefix_truthy (q : String)
    (h : pyStartsWith (pyUpper (pyStrip q)) "SELECT" = true) :
    truthy (.vStr q) = true := by
  by_cases hq : q.data = []
  · exfalso
    rw [pyStartsWith, pyUpper, pyStrip, hq] at h
    simp [List.isPrefixOf] at h
  · simp [truthy, List.isEmpty_iff, hq]

/-- Unfolding equation for objKeys on an object. -/
lemma objKeys_obj (fs : List (String × Json)) : objKeys (Json.obj fs) = fs.map Prod.fst := rfl

/-- Keys of one serialized result row object. -/
lemma rowObject_keys (columns : List String) (row : List PyValue) :
    objKeys (rowObject columns row) = dedupKeys ((columns.zip row).map Prod.fst) := by
  have h1 : rowObject columns row =
      Json.obj ((pyDict (columns.zip row)).map (fun kv => (kv.1, pyToJson kv.2))) := rfl
  have hcomp : (Prod.fst ∘ fun kv : String × PyValue => (kv.1, pyToJson kv.2)) =
      (Prod.fst : String × PyValue → String) := funext (fun kv => rfl)
  rw [h1, objKeys_obj, List.map_map, hcomp, pyDict_keys]

/-- Keys of one serialized result row object when the column names are
pairwise distinct and the row has at least one value per column. -/
lemma rowObject_keys_nodup (columns : List String) (row : List PyValue)
    (hnd : columns.Nodup) (hlen : columns.length ≤ row.length) :
    objKeys (rowObject columns row) = columns := by
  rw [rowObject_keys, List.map_fst_zip columns row hlen, dedupKeys_eq_self columns hnd]

end SqlCheck

namespace SqlCheck

open Py

/-- C10: a falsy table_name or query value short circuits to the fixed
required parameters error before any store interaction. -/
theorem required_params_guard (db : Store) (p : Dict)
    (h : truthy (p.get "table_name") = false ∨ truthy (p.get "query") = false) :
    execute_select_query db p =
      ⟨.ok "Error: Both table_name and query parameters are required", false, []⟩ := by
  unfold execute_select_query
  rcases h with h | h <;> simp [h]

/-- C9: the outcome depends only on the query value once table_name is
truthy. -/
theorem table_name_noninterference (db : Store) (p1 p2 : Dict)
    (hq : p1.get "query" = p2.get "query")
    (h1 : truthy (p1.get "table_name") = true)
    (h2 : truthy (p2.get "table_name") = true) :
    execute_select_query db p1 = execute_select_query db p2 := by
  unfold execute_select_query
  rw [hq, h1, h2]

/-- C1: a string query whose stripped upper cased form does not start
with SELECT yields an error text and no executed statement. -/
theorem select_prefix_guard (db : Store) (p : Dict) (q : String)
    (hq : p.get "query" = .vStr q)
    (ht : truthy (p.get "table_name") = true)
    (hsel : pyStartsWith (pyUpper (pyStrip q)) "SELECT" = false) :
    (execute_select_query db p).executed = [] ∧
    ∃ s, (execute_select_query db p).result = .ok s ∧ pyStartsWith s "Error" = true := by
  unfold execute_select_query
  rw [hq, ht]
  by_cases hq0 : truthy (PyValue.vStr q) = true
  · rw [hq0]
    simp only [Bool.not_true, Bool.or_self, Bool.false_or]
    cases hc : db.connect with
    | error e =>
      exact ⟨rfl, "Error executing query: " ++ e, rfl, pyStartsWith_error_exec e⟩
    | ok u =>
      rw [hsel]
      exact ⟨rfl, "Error: Only SELECT queries are allowed", rfl, by decide⟩
  · rw [Bool.not_eq_true] at hq0
    rw [hq0]
    exact ⟨rfl, "Error: Both table_name and query parameters are required", rfl, by decide⟩

/-- Totality of get_table_ddl: every store behavior yields an ok
textual result, never a fault. -/
lemma get_table_ddl_total (db : Store) (tn : String) :
    ∃ s, get_table_ddl db tn = .ok s := by
  unfold get_table_ddl
  cases db.connect with
  | error e => exact ⟨_, rfl⟩
  | ok u =>
    cases db.ddl (pyUpper tn) with
    | error e => exact ⟨_, rfl⟩
    | ok r =>
      cases r with
      | none => exact ⟨_, rfl⟩
      | some v => exact ⟨_, rfl⟩

/-- C7: asking for the DDL of a table the metadata facility has no row
for returns the descriptive no DDL found text, and get_table_ddl is in
every case an ok textual result, never a fault. -/
theorem ddl_missing_table_text (db : Store) (tn : String) :
    (db.connect = .ok () → db.ddl (pyUpper tn) = .ok none →
      get_table_ddl db tn = .ok ("No DDL found for table " ++ tn)) ∧
    (∃ s, get_table_ddl db tn = .ok s) := by
  constructor
  · intro hc hd
    unfold get_table_ddl
    rw [hc, hd]
  · exact get_table_ddl_total db tn

/-- C5: every store level (oracledb) error raised in either tool is
caught and surfaces as an ok textual error result, never as a fault;
for every params mapping whose query value is a string or falsy, the
whole call returns an ok text. -/
theorem store_errors_become_text (db : Store) (p : Dict) (tn : String) :
    (∃ s, get_table_ddl db tn = .ok s) ∧
    (∀ e, db.connect = .error e →
      get_table_ddl db tn = .ok ("Error retrieving DDL: " ++ e)) ∧
    (∀ e, db.connect = .ok () → db.ddl (pyUpper tn) = .error e →
      get_table_ddl db tn = .ok ("Error retrieving DDL: " ++ e)) ∧
    ((∃ q, p.get "query" = .vStr q) ∨ truthy (p.get "query") = false →
      ∃ s, (execute_select_query db p).result = .ok s) ∧
    (∀ e, db.connect = .error e → truthy (p.get "table_name") = true →
      truthy (p.get "query") = true →
      (execute_select_query db p).result = .ok ("Error executing query: " ++ e)) ∧
    (∀ e q, db.connect = .ok () → p.get "query" = .vStr q →
      truthy (p.get "table_name") = true →
      pyStartsWith (pyUpper (pyStrip q)) "SELECT" = true →
      db.exec q = .error e →
      (execute_select_query db p).result = .ok ("Error executing query: " ++ e)) := by
  refine ⟨get_table_ddl_total db tn, ?_, ?_, ?_, ?_, ?_⟩
  · intro e hc
    unfold get_table_ddl
    rw [hc]
  · intro e hc hd
    unfold get_table_ddl
    rw [hc, hd]
  · intro h
    unfold execute_select_query
    by_cases ht : truthy (p.get "table_name") = true
    · rw [ht]
      by_cases hq0 : truthy (p.get "query") = true
      · rw [hq0]
        simp only [Bool.not_true, Bool.or_self, Bool.false_or]
        cases hc : db.connect with
        | error e => exact ⟨_, rfl⟩
        | ok u =>
          rcases h with ⟨q, hq⟩ | h
          · rw [hq]
            by_cases hsel : pyStartsWith (pyUpper (pyStrip q)) "SELECT" = true
            · simp only [hsel, Bool.not_true, Bool.false_or, if_neg, Bool.false_eq_true,
                not_false_eq_true]
              cases he : db.exec q with
              | error e => simp [he]
              | ok cr =>
                cases cr with
                | mk columns results => simp [he]
            · rw [Bool.not_eq_true] at hsel
              simp [hsel]
          · rw [h] at hq0
            exact absurd hq0 (by decide)
      · rw [Bool.not_eq_true] at hq0
        rw [hq0]
        exact ⟨_, rfl⟩
    · rw [Bool.not_eq_true] at ht
      rw [ht]
      exact ⟨_, rfl⟩
  · intro e hc ht hq0
    unfold execute_select_query
    simp [hc, ht, hq0]
  · intro e q hc hq ht hsel he
    unfold execute_select_query
    simp [hc, hq, ht, hsel, he, select_prefix_truthy q hsel]

/-- C4 amended: accepted queries return the rendered JSON array with
one object per fetched row; object keys are the first occurrence
dedup of the zipped column names, which equals the column list exactly
when the names are distinct and the row is full width. -/
theorem result_rows_serialization (db : Store) (p : Dict) (q : String)
    (cols : List String) (rows : List (List PyValue))
    (ht : truthy (p.get "table_name") = true)
    (hq : p.get "query" = .vStr q)
    (hsel : pyStartsWith (pyUpper (pyStrip q)) "SELECT" = true)
    (hc : db.connect = .ok ())
    (he : db.exec q = .ok (cols, rows)) :
    (execute_select_query db p).result = .ok (renderJson (jsonOfResults cols rows)) ∧
    (execute_select_query db p).executed = [q] ∧
    (∃ objs, jsonOfResults cols rows = Json.arr objs ∧ objs.length = rows.length) ∧
    (∀ row, objKeys (rowObject cols row) = dedupKeys ((cols.zip row).map Prod.fst)) ∧
    (cols.Nodup → ∀ row, cols.length ≤ row.length → objKeys (rowObject cols row) = cols) := by
  refine ⟨?_, ?_, ?_, ?_, ?_⟩
  · unfold execute_select_query
    simp [hc, hq, ht, hsel, he, select_prefix_truthy q hsel]
  · unfold execute_select_query
    simp [hc, hq, ht, hsel, he, select_prefix_truthy q hsel]
  · exact ⟨rows.map (rowObject cols), rfl, List.length_map rows (rowObject cols)⟩
  · intro row
    exact rowObject_keys cols row
  · intro hnd row hlen
    exact rowObject_keys_nodup cols row hnd hlen

end SqlCheck

namespace SqlCheck

open Py

theorem select_prefix_guard_witness :
    (execute_select_query storeOk pDrop).executed = [] ∧
    ∃ s, (execute_select_query storeOk pDrop).result = .ok s ∧
      pyStartsWith s "Error" = true :=
  select_prefix_guard storeOk pDrop "DROP TABLE T" rfl rfl (by decide)

theorem table_name_noninterference_witness :
    execute_select_query storeOk pSelectA = execute_select_query storeOk pSelectB :=
  table_name_noninterference storeOk pSelectA pSelectB rfl rfl rfl

theorem required_params_guard_witness :
    execute_select_query storeOk pNoTable =
      ⟨.ok "Error: Both table_name and query parameters are required", false, []⟩ :=
  required_params_guard storeOk pNoTable (Or.inl (by decide))

theorem ddl_missing_table_text_witness :
    get_table_ddl storeNoDdl "GHOST" = .ok "No DDL found for table GHOST" :=
  (ddl_missing_table_text storeNoDdl "GHOST").1 rfl rfl

theorem store_errors_become_text_witness :
    get_table_ddl storeDown "T" = .ok "Error retrieving DDL: ORA-12541: no listener" ∧
    (∃ s, (execute_select_query storeDown pSelectA).result = .ok s) ∧
    (execute_select_query storeDown pSelectA).result =
      .ok "Error executing query: ORA-12541: no listener" := by
  obtain ⟨h1, h2, h3, h4, h5, h6⟩ := store_errors_become_text storeDown pSelectA "T"
  exact ⟨h2 _ rfl, h4 (Or.inl ⟨_, rfl⟩), h5 _ rfl rfl rfl⟩

/-- C4 counterexample: with duplicate column names the returned object
has the keys collapsed, so the key list is not the column list. -/
theorem result_object_keys_counterexample :
    (execute_select_query storeDup pDupCols).result =
      .ok (renderJson (Json.arr [Json.obj [("A", Json.num 2)]])) ∧
    objKeys (Json.obj [("A", Json.num 2)]) = ["A"] ∧
    (["A"] : List String) ≠ ["A", "A"] := by
  refine ⟨rfl, rfl, by decide⟩

theorem result_rows_serialization_witness :
    (execute_select_query storeOk pSelectA).result =
      .ok (renderJson (jsonOfResults ["ID"] [[PyValue.vInt 7]])) ∧
    (execute_select_query storeOk pSelectA).executed = ["SELECT * FROM ORDERS"] ∧
    (∃ objs, jsonOfResults ["ID"] [[PyValue.vInt 7]] = Json.arr objs ∧ objs.length = 1) ∧
    (∀ row, objKeys (rowObject ["ID"] row) =
      dedupKeys (((["ID"] : List String).zip row).map Prod.fst)) ∧
    ((["ID"] : List String).Nodup → ∀ row, (["ID"] : List String).length ≤ row.length →
      objKeys (rowObject ["ID"] row) = ["ID"]) :=
  result_rows_serialization storeOk pSelectA "SELECT * FROM ORDERS" ["ID"] [[PyValue.vInt 7]]
    rfl rfl (by decide) rfl rfl

end SqlCheck

namespace Api

open Py

/-- Counting distributes over trace concatenation. -/
lemma countEv_append (e : Ev) (a b : List Ev) :
    countEv e (a ++ b) = countEv e a + countEv e b := by
  induction a with
  | nil => simp [countEv]
  | cons x xs ih => simp [countEv, ih]; omega

/-- Invoke counting distributes over trace concatenation. -/
lemma countInvokes_append (a b : List Ev) :
    countInvokes (a ++ b) = countInvokes a + countInvokes b := by
  induction a with
  | nil => simp [countInvokes]
  | cons x xs ih =>
    cases x <;> simp [countInvokes, ih, Nat.add_assoc]

/-- C8: the unary endpoint closes the client on every exit path, and
every opened session is closed. -/
theorem unary_always_closes (env : AgentEnv) (q : String) :
    (query_ai env q).2.getLast? = some Ev.clientClosed ∧
    countEv Ev.clientClosed (query_ai env q).2 = 1 ∧
    (env.openSession = .ok () → countEv Ev.sessionClose (query_ai env q).2 = 1) := by
  unfold query_ai ai_query
  cases hs : env.openSession with
  | error e =>
    refine ⟨rfl, rfl, ?_⟩
    intro hcon
    simp at hcon
  | ok u =>
    cases ha : env.agent q with
    | ok r => exact ⟨rfl, rfl, fun _ => rfl⟩
    | error e => exact ⟨rfl, rfl, fun _ => rfl⟩

/-- Per query session trace counts of the WebSocket loop, when every
query succeeds. -/
lemma wsLoop_counts (env : AgentEnv) (hs : env.openSession = .ok ()) :
    ∀ qs : List String, (∀ q ∈ qs, ∃ r, env.agent q = .ok r) →
      countEv Ev.sessionOpen (wsLoop env qs) = qs.length ∧
      countEv Ev.toolsDiscovered (wsLoop env qs) = qs.length ∧
      countEv Ev.sessionClose (wsLoop env qs) = qs.length ∧
      countEv Ev.clientCreated (wsLoop env qs) = 0 ∧
      countEv Ev.clientClosed (wsLoop env qs) = 1 := by
  intro qs
  induction qs with
  | nil => intro _; exact ⟨rfl, rfl, rfl, rfl, rfl⟩
  | cons q rest ih =>
    intro hok
    obtain ⟨r, hr⟩ := hok q (by simp)
    obtain ⟨h1, h2, h3, h4, h5⟩ := ih (fun p hp => hok p (by simp [hp]))
    unfold wsLoop ai_query
    rw [hs, hr]
    dsimp only
    refine ⟨?_, ?_, ?_, ?_, ?_⟩ <;>
      simp [countEv_append, countEv, h1, h2, h3, h4, h5] <;> omega

/-- C2 amended: one client per WebSocket connection, but one full MCP
session (spawn, handshake, discovery, close) per received query. -/
theorem ws_one_session_per_query (env : AgentEnv) (qs : List String)
    (hs : env.openSession = .ok ())
    (hok : ∀ q ∈ qs, ∃ r, env.agent q = .ok r) :
    countEv Ev.sessionOpen (websocket_ai_query env qs) = qs.length ∧
    countEv Ev.toolsDiscovered (websocket_ai_query env qs) = qs.length ∧
    countEv Ev.sessionClose (websocket_ai_query env qs) = qs.length ∧
    countEv Ev.clientCreated (websocket_ai_query env qs) = 1 ∧
    countEv Ev.clientClosed (websocket_ai_query env qs) = 1 := by
  obtain ⟨h1, h2, h3, h4, h5⟩ := wsLoop_counts env hs qs hok
  unfold websocket_ai_query
  refine ⟨?_, ?_, ?_, ?_, ?_⟩ <;> simp [countEv, h1, h2, h3, h4, h5]

end Api

namespace Api

open Py

/-- C2 counterexample: two queries on one WebSocket connection spawn
two sessions and discover tools twice, not once. -/
theorem ws_session_reuse_counterexample :
    countEv Ev.sessionOpen (websocket_ai_query envEcho ["q1", "q2"]) = 2 ∧
    countEv Ev.toolsDiscovered (websocket_ai_query envEcho ["q1", "q2"]) = 2 ∧
    countEv Ev.sessionOpen (websocket_ai_query envEcho ["q1", "q2"]) ≠ 1 := by
  refine ⟨rfl, rfl, ?_⟩
  have h2 : countEv Ev.sessionOpen (websocket_ai_query envEcho ["q1", "q2"]) = 2 := rfl
  rw [h2]
  decide

theorem ws_one_session_per_query_witness :
    countEv Ev.sessionOpen (websocket_ai_query envEcho ["q1", "q2"]) = 2 ∧
    countEv Ev.toolsDiscovered (websocket_ai_query envEcho ["q1", "q2"]) = 2 ∧
    countEv Ev.sessionClose (websocket_ai_query envEcho ["q1", "q2"]) = 2 ∧
    countEv Ev.clientCreated (websocket_ai_query envEcho ["q1", "q2"]) = 1 ∧
    countEv Ev.clientClosed (websocket_ai_query envEcho ["q1", "q2"]) = 1 :=
  ws_one_session_per_query envEcho ["q1", "q2"] rfl (fun q _ => ⟨"answer to " ++ q, rfl⟩)

theorem unary_always_closes_witness :
    (query_ai envEcho "list the orders").2.getLast? = some Ev.clientClosed ∧
    countEv Ev.clientClosed (query_ai envEcho "list the orders").2 = 1 ∧
    (envEcho.openSession = .ok () →
      countEv Ev.sessionClose (query_ai envEcho "list the orders").2 = 1) :=
  unary_always_closes envEcho "list the orders"

/-- C3 counterexample: the unary endpoint returns the agent output
with the reasoning markers intact. -/
theorem unary_marker_leak_counterexample :
    (query_ai envLeak "show orders").1 =
      HttpResult.ok "<think>internal reasoning</think> final answer" ∧
    pyContains "<think>internal reasoning</think> final answer" "<think>" = true ∧
    pyContains "<think>internal reasoning</think> final answer" "</think>" = true := by
  refine ⟨rfl, by decide, by decide⟩

/-- C3 amended: the WebSocket path sends the cleaned response while
the unary path returns the agent output unmodified. -/
theorem marker_stripping_ws_only (env : AgentEnv) (q r : String) (rest : List String)
    (hs : env.openSession = .ok ()) (ha : env.agent q = .ok r) :
    (query_ai env q).1 = HttpResult.ok r ∧
    websocket_ai_query env (q :: rest) =
      [Ev.clientCreated, Ev.sessionOpen, Ev.sessionInit, Ev.toolsDiscovered,
       Ev.agentInvoke q, Ev.sessionClose, Ev.sendText (cleanResponse r)] ++ wsLoop env rest := by
  constructor
  · unfold query_ai ai_query
    rw [hs, ha]
  · simp only [websocket_ai_query, wsLoop, ai_query]
    rw [hs, ha]
    simp

theorem marker_stripping_ws_only_witness :
    (query_ai envLeak "q").1 =
      HttpResult.ok "<think>internal reasoning</think> final answer" ∧
    websocket_ai_query envLeak ["q"] =
      [Ev.clientCreated, Ev.sessionOpen, Ev.sessionInit, Ev.toolsDiscovered,
       Ev.agentInvoke "q", Ev.sessionClose,
       Ev.sendText (cleanResponse "<think>internal reasoning</think> final answer")]
      ++ wsLoop envLeak [] ∧
    cleanResponse "<think>internal reasoning</think> final answer"
      = "internal reasoning final answer" :=
  ⟨(marker_stripping_ws_only envLeak "q" "<think>internal reasoning</think> final answer" [] rfl rfl).1,
   (marker_stripping_ws_only envLeak "q" "<think>internal reasoning</think> final answer" [] rfl rfl).2,
   by decide⟩

end Api

namespace Api

open Py

/-- C6 counterexample: after the failing query bad, the handler sends
one error frame, closes the client and never processes the following
query good. -/
theorem ws_error_ends_connection_counterexample :
    websocket_ai_query envFail ["bad", "good"]
      = [Ev.clientCreated, Ev.sessionOpen, Ev.sessionInit, Ev.toolsDiscovered,
         Ev.agentInvoke "bad", Ev.sessionClose, Ev.sendText "Error: boom",
         Ev.clientClosed] ∧
    countInvokes (websocket_ai_query envFail ["bad", "good"]) = 1 ∧
    Ev.agentInvoke "good" ∉ websocket_ai_query envFail ["bad", "good"] := by
  refine ⟨rfl, rfl, by decide⟩

/-- C6 amended: the first raised exception produces exactly one final
Error prefixed frame followed by the client closing, and the queries
after the failing one are never invoked. -/
theorem ws_error_frame_then_close (env : AgentEnv) (pre : List String) (q : String)
    (rest : List String) (e : String)
    (hs : env.openSession = .ok ())
    (hok : ∀ p ∈ pre, ∃ r, env.agent p = .ok r)
    (he : env.agent q = .error e) :
    (∃ evs, websocket_ai_query env (pre ++ q :: rest)
      = evs ++ [Ev.sendText ("Error: " ++ e), Ev.clientClosed]) ∧
    countInvokes (websocket_ai_query env (pre ++ q :: rest)) = pre.length + 1 := by
  have hloop : ∀ pre : List String, (∀ p ∈ pre, ∃ r, env.agent p = .ok r) →
      (∃ evs, wsLoop env (pre ++ q :: rest)
        = evs ++ [Ev.sendText ("Error: " ++ e), Ev.clientClosed]) ∧
      countInvokes (wsLoop env (pre ++ q :: rest)) = pre.length + 1 := by
    intro pre
    induction pre with
    | nil =>
      intro _
      constructor
      · refine ⟨[Ev.sessionOpen, Ev.sessionInit, Ev.toolsDiscovered,
          Ev.agentInvoke q, Ev.sessionClose], ?_⟩
        simp only [List.nil_append, wsLoop, ai_query]
        rw [hs, he]
      · simp only [List.nil_append, wsLoop, ai_query]
        rw [hs, he]
        rfl
    | cons p pre2 ih =>
      intro hok2
      obtain ⟨r, hr⟩ := hok2 p (by simp)
      obtain ⟨⟨evs2, hevs2⟩, hcount2⟩ := ih (fun x hx => hok2 x (by simp [hx]))
      constructor
      · refine ⟨[Ev.sessionOpen, Ev.sessionInit, Ev.toolsDiscovered,
          Ev.agentInvoke p, Ev.sessionClose, Ev.sendText (cleanResponse r)] ++ evs2, ?_⟩
        simp only [List.cons_append, wsLoop, ai_query]
        rw [hs, hr]
        simp [hevs2]
      · simp only [List.cons_append, wsLoop, ai_query]
        rw [hs, hr]
        simp only [countInvokes, countInvokes_append]
        rw [List.length_cons]
        have hc : countInvokes [Ev.sessionOpen, Ev.sessionInit, Ev.toolsDiscovered,
            Ev.agentInvoke p, Ev.sessionClose, Ev.sendText (cleanResponse r)] = 1 := rfl
        calc countInvokes (Ev.sessionOpen :: Ev.sessionInit :: Ev.toolsDiscovered ::
              Ev.agentInvoke p :: Ev.sessionClose :: Ev.sendText (cleanResponse r) ::
              wsLoop env (pre2 ++ q :: rest))
            = 1 + countInvokes (wsLoop env (pre2 ++ q :: rest)) := rfl
          _ = pre2.length + 1 + 1 := by rw [hcount2]; omega
          _ = pre2.length + 1 + 1 := rfl
  obtain ⟨⟨evs, hevs⟩, hcount⟩ := hloop pre hok
  constructor
  · exact ⟨Ev.clientCreated :: evs, by simp [websocket_ai_query, hevs]⟩
  · simp only [websocket_ai_query, countInvokes]
    exact hcount

theorem ws_error_frame_then_close_witness :
    (∃ evs, websocket_ai_query envFail (["good"] ++ "bad" :: ["later"])
      = evs ++ [Ev.sendText ("Error: " ++ "boom"), Ev.clientClosed]) ∧
    countInvokes (websocket_ai_query envFail (["good"] ++ "bad" :: ["later"]))
      = (["good"] : List String).length + 1 :=
  ws_error_frame_then_close envFail ["good"] "bad" ["later"] "boom" rfl
    (fun p hp => ⟨"fine", by
      rcases List.mem_singleton.mp hp with rfl
      rfl⟩) rfl

end Api
